import Mathlib

/-!
Verification of the Discord leaderboard bot: a shallow embedding of `src/main.py` (a Discord leaderboard bot).  The bot's
core pipeline — registry lookup, database fetch, embed formatting, cooldown
gate, dropdown callback — is modelled as pure Lean functions.  External
effects (MySQL connector, Discord API) are abstracted into environment
records of success/failure outcomes; every possible outcome combination is a
field valuation, so universal theorems over the environment quantify over all
runtime behaviours of the external world.

Modelling conventions:
* Machine integers from the database are modelled as `Int` (Python ints are
  unbounded).
* Wall-clock times (`time.time()`, a float) are modelled as `ℚ`.
* A Python function that can raise is modelled with `Except` / `Option`.
* `ORDER BY levels_reached DESC, kills DESC LIMIT n` is modelled as a
  deterministic merge sort by the corresponding comparator followed by
  `take n`; the environment supplies the pre-`ORDER BY` result multiset of
  each query shape.
-/

/-- One entry of the `LEADERBOARDS` configuration dict (main.py lines 55-91):
display name, backing table name, and whether the query joins `Users`. -/
structure LBConfig where
  name : String
  table : String
  join_users : Bool
  deriving DecidableEq, Repr

/-- The `LEADERBOARDS` dict of main.py lines 55-91, in insertion order. -/
def LEADERBOARDS : List (String × LBConfig) :=
  [("general", ⟨"General Leaderboard", "Leaderboard", true⟩),
   ("3ull", ⟨"Playa3ull", "3ull_tournament_leaderboard", false⟩),
   ("dragon", ⟨"Ancient Dragon Alliance", "leaderboard_dragon", false⟩),
   ("gingerbread", ⟨"Gingerbread Squad", "leaderboard_gingerbread", false⟩),
   ("promo", ⟨"Promo Facie", "leaderboard_promo", false⟩),
   ("squeak", ⟨"World of Squeak", "leaderboard_squeak", false⟩),
   ("algo apes", ⟨"Algo Apes", "algoapes_tournament_leaderboard", false⟩)]

/-- `LEADERBOARDS.get(key)` (main.py line 133): dictionary lookup returning
`None` for an absent key. -/
def LEADERBOARDS_get (key : String) : Option LBConfig :=
  (LEADERBOARDS.find? (fun e => e.1 == key)).map (fun e => e.2)

/-- One result row of a leaderboard query: the projected
`nickname`, `kills`, `levels_reached` columns. -/
structure Row where
  nickname : String
  kills : Int
  levels_reached : Int
  deriving DecidableEq, Repr

/-- The three SQL query shapes built at main.py lines 147-173.
* `joinUsers t`: `SELECT u.nickname, l.kills, l.levels_reached FROM t l JOIN
  Users u ON l.user_id = u.user_id ORDER BY l.levels_reached DESC, l.kills
  DESC LIMIT %s`
* `directUserId t`: `SELECT user_id as nickname, kills, levels_reached FROM t
  ORDER BY levels_reached DESC, kills DESC LIMIT %s`
* `usernameColumn t`: `SELECT username as nickname, kills, levels_reached
  FROM t ORDER BY levels_reached DESC, kills DESC LIMIT %s` -/
inductive QueryShape where
  | joinUsers (table : String)
  | directUserId (table : String)
  | usernameColumn (table : String)
  deriving DecidableEq, Repr

/-- The query-shape dispatch of main.py lines 147-173: `join_users` selects
the `Users` join; otherwise the key `"3ull"` selects the direct
`user_id as nickname` projection; otherwise the `username` column is
projected. -/
def query_shape (config : LBConfig) (leaderboard_key : String) : QueryShape :=
  if config.join_users then
    QueryShape.joinUsers config.table
  else if leaderboard_key == "3ull" then
    QueryShape.directUserId config.table
  else
    QueryShape.usernameColumn config.table

/-- The comparator realised by `ORDER BY levels_reached DESC, kills DESC`:
`a` may precede `b` iff `a` has strictly more levels reached, or equal levels
and at least as many kills. -/
def rowLe (a b : Row) : Bool :=
  decide (b.levels_reached < a.levels_reached) ||
    (decide (a.levels_reached = b.levels_reached) && decide (b.kills ≤ a.kills))

/-- Exceptions that `fetch_leaderboard_data` can raise or swallow.
`mysqlError` stands for any `mysql.connector.Error`; `unboundLocalError` is
Python's `UnboundLocalError`, raised when the `finally` block reads the local
`cursor` although line 145 never assigned it. -/
inductive PyError where
  | mysqlError
  | unboundLocalError
  deriving DecidableEq, Repr

/-- Abstraction of one call's interaction with the MySQL connector.
* `connectOk`: `mysql.connector.connect` succeeds (line 121).
* `cursorOk`: `connection.cursor(dictionary=True)` succeeds (line 145).
* `queryOk`: `cursor.execute` + `cursor.fetchall` succeed (lines 176-177).
* `connectedAtFinally`: what `connection.is_connected()` reports inside the
  `finally` block (line 186).
* `resultSet`: the rows the database holds for each query shape, before the
  server applies `ORDER BY`/`LIMIT`.
`cursor.close()`, `connection.close()` and `is_connected()` are modelled as
non-raising, matching the connector's documented behaviour. -/
structure DBEnv where
  connectOk : Bool
  cursorOk : Bool
  queryOk : Bool
  connectedAtFinally : Bool
  resultSet : QueryShape → List Row

/-- `ORDER BY levels_reached DESC, kills DESC LIMIT limit` applied to the
rows a query shape selects. -/
def runQuery (env : DBEnv) (q : QueryShape) (limit : Nat) : List Row :=
  (List.mergeSort (env.resultSet q) rowLe).take limit

deriving instance DecidableEq for Except

/-- Outcome of one `fetch_leaderboard_data` call.
* `result`: the returned row list, or the exception that escaped the call.
* `opened`: a database connection was successfully opened.
* `closeCalled`: `connection.close()` (line 188) was actually invoked.
* `builtQuery`: the query string built (and handed to `cursor.execute`),
  when execution got that far. -/
structure FetchResult where
  result : Except PyError (List Row)
  opened : Bool
  closeCalled : Bool
  builtQuery : Option QueryShape
  deriving DecidableEq, Repr

/-- `fetch_leaderboard_data(leaderboard_key, limit=10)` (main.py lines
127-188), path by path:
* unknown key → early `return []` (lines 133-136), no connection opened;
* connection failure → `return []` (lines 139-142);
* cursor creation raises (caught at line 182, pending `return []`): the
  `finally` block then evaluates `connection.is_connected()`; if `True`,
  `cursor.close()` reads the never-assigned local `cursor` and raises
  `UnboundLocalError`, which replaces the pending return and leaves
  `connection.close()` unexecuted; if `False`, the close is skipped and the
  pending `[]` is returned;
* query failure → caught, `return []`, `finally` closes iff still connected;
* success → sorted, truncated rows, `finally` closes iff still connected. -/
def fetch_leaderboard_data (env : DBEnv) (leaderboard_key : String)
    (limit : Nat) : FetchResult :=
  match LEADERBOARDS_get leaderboard_key with
  | none => ⟨Except.ok [], false, false, none⟩
  | some config =>
    if env.connectOk then
      if env.cursorOk then
        let q := query_shape config leaderboard_key
        if env.queryOk then
          ⟨Except.ok (runQuery env q limit), true, env.connectedAtFinally, some q⟩
        else
          ⟨Except.ok [], true, env.connectedAtFinally, some q⟩
      else
        if env.connectedAtFinally then
          ⟨Except.error PyError.unboundLocalError, true, false, none⟩
        else
          ⟨Except.ok [], true, false, none⟩
    else
      ⟨Except.ok [], false, false, none⟩

/-- `fetch_leaderboard_data(leaderboard_key)` with Python's default
`limit=10`, as called by the dropdown callback (main.py line 277). -/
def fetch_leaderboard_data_default (env : DBEnv) (leaderboard_key : String) :
    FetchResult :=
  fetch_leaderboard_data env leaderboard_key 10

/-- Digit grouping on a reversed digit string: insert `','` after every third
character, as Python's `format(n, ',')` does counting from the right. -/
def groupRev : List Char → List Char
  | [] => []
  | [a] => [a]
  | [a, b] => [a, b]
  | [a, b, c] => [a, b, c]
  | a :: b :: c :: rest => a :: b :: c :: ',' :: groupRev rest

/-- `format(n, ',')` for a natural number: decimal digits with a comma
between every group of three. -/
def commaGroupNat (n : Nat) : String :=
  String.mk (groupRev (toString n).toList.reverse).reverse

/-- Python's `f"{kills:,}"` (main.py line 219) on an unbounded integer. -/
def commaFormat (n : Int) : String :=
  if n < 0 then "-" ++ commaGroupNat n.natAbs else commaGroupNat n.natAbs

/-- The f-string template of main.py line 222 for one leaderboard entry:
`f"{i}. **{player['nickname']}** - {player['levels_reached']} waves survived,
{kills_formatted} enemies destroyed\n"`. -/
def rankedLine (i : Nat) (player : Row) : String :=
  toString i ++ ". **" ++ player.nickname ++ "** - " ++
    toString player.levels_reached ++ " waves survived, " ++
    commaFormat player.kills ++ " enemies destroyed\n"

/-- The fields of the `discord.Embed` that `create_leaderboard_embed`
populates: title, colour, footer text and description. -/
structure Embed where
  title : String
  color : Nat
  footer : String
  description : String
  deriving DecidableEq, Repr

/-- `create_leaderboard_embed(leaderboard_key, data)` (main.py lines
194-227).  The unguarded dict indexing `LEADERBOARDS[leaderboard_key]` at
line 199 raises `KeyError` for an absent key, modelled as `none`.  The ranked
list is accumulated exactly as the `for i, player in enumerate(data, 1)` loop
does: string concatenation with a counter starting at 1. -/
def create_leaderboard_embed (leaderboard_key : String) (data : List Row) :
    Option Embed :=
  match LEADERBOARDS_get leaderboard_key with
  | none => none
  | some config =>
    let base : Embed := ⟨config.name, 0x000000, "Graveyard Antics TD", ""⟩
    if data.isEmpty then
      some { base with description := "No players found in this leaderboard." }
    else
      let acc := data.foldl
        (fun (acc : String × Nat) (player : Row) =>
          (acc.1 ++ rankedLine acc.2 player, acc.2 + 1))
        ("", 1)
      some { base with description := acc.1 }

/-- Spec-side characterisation of the ranked list: the per-line rendering of
`data` with ranks counted from `i`. -/
def linesFrom (i : Nat) : List Row → List String
  | [] => []
  | player :: rest => rankedLine i player :: linesFrom (i + 1) rest

/-- The messages `leaderboards_command` can send: the cooldown notice of
main.py line 341 (with its computed minute and second counts) or the menu
embed with the dropdown view (line 370). -/
inductive Send where
  | cooldownNotice (minutes seconds : Int)
  | menuMessage
  deriving DecidableEq, Repr

/-- External-world abstraction for one `leaderboards_command` call:
whether the single `ctx.send` the call performs succeeds. -/
structure CmdEnv where
  sendOk : Bool
  deriving DecidableEq, Repr

/-- Outcome of one `leaderboards_command` call.
* `sends`: the `ctx.send` calls attempted, in order.
* `raised`: an exception escaped the command (a failed `ctx.send`; the
  command has no handler, and the global `on_command_error` hook is
  commented out in the source).
* `state`: the value of the global `last_leaderboard_time` after the call. -/
structure CmdResult where
  sends : List Send
  raised : Bool
  state : ℚ
  deriving DecidableEq, Repr

/-- `leaderboards_command(ctx)` (main.py lines 322-371) as a transition on
the global `last_leaderboard_time` (`last`), at wall-clock time `now`.
If `now - last < 300`, it computes `remaining = 300 - (now - last)`,
`minutes = int(remaining // 60)`, `seconds = int(remaining % 60)`, sends the
cooldown notice and returns without touching the global.  Otherwise it sets
`last_leaderboard_time = now` first (line 345) and only then attempts to
send the menu message (line 370). -/
def leaderboards_command (env : CmdEnv) (now last : ℚ) : CmdResult :=
  if now - last < 300 then
    let remaining := 300 - (now - last)
    let minutes := Rat.floor (remaining / 60)
    let seconds := Rat.floor remaining - 60 * minutes
    ⟨[Send.cooldownNotice minutes seconds], !env.sendOk, last⟩
  else
    ⟨[Send.menuMessage], !env.sendOk, now⟩

/-- The Discord operations the dropdown callback can attempt, recorded at the
moment the call is issued.
* `deferEv`: `interaction.response.defer()` (line 269) — the acknowledgement.
* `fetchEv`: `fetch_leaderboard_data(key)` (line 277).
* `formatEv`: `create_leaderboard_embed(key, data)` (line 281).
* `followupSend`: `interaction.followup.send(embed=..., ephemeral=False)`
  (line 286) — the public leaderboard message.
* `errorResponse` / `errorFollowup`: the generic `"Something went wrong!"`
  notice via `interaction.response.send_message` (line 294) or
  `interaction.followup.send` (line 296), both `ephemeral=True`. -/
inductive Ev where
  | deferEv
  | fetchEv (key : String)
  | formatEv (key : String)
  | followupSend (ephemeral : Bool)
  | errorResponse (ephemeral : Bool)
  | errorFollowup (ephemeral : Bool)
  deriving DecidableEq, Repr

/-- External-world abstraction for one dropdown-callback run:
whether `defer` succeeds, the database environment the inner fetch sees,
whether the leaderboard `followup.send` succeeds, and whether the error
notice (if one is attempted) succeeds. -/
structure CbEnv where
  deferOk : Bool
  db : DBEnv
  followupOk : Bool
  noticeOk : Bool

/-- Outcome of one dropdown-callback run.
* `trace`: every Discord/database operation attempted, in order.
* `raised`: an exception escaped the callback to the event loop.
* `success`: the leaderboard message was sent successfully.
* `noticeDelivered`: an error notice was attempted and actually reached the
  user. -/
structure CbResult where
  trace : List Ev
  raised : Bool
  success : Bool
  noticeDelivered : Bool
  deriving DecidableEq, Repr

/-- The error path of the outer `except` (main.py lines 289-298): if the
interaction response is not yet done (the `defer` never succeeded), try
`response.send_message`, else try `followup.send`; a failure of that very
send is swallowed by the bare inner `except`. -/
def errorNotice (isDone : Bool) : List Ev :=
  if isDone then [Ev.errorFollowup true] else [Ev.errorResponse true]

/-- `LeaderboardDropdown.callback(interaction)` (main.py lines 257-298) with
the selected value `key`.  The whole body runs under `try`; any exception —
from `defer`, from a `fetch_leaderboard_data` that itself raises, from the
`KeyError` of `create_leaderboard_embed`, or from the final `followup.send`
— lands in the `except Exception` handler, which attempts the generic error
notice on whichever channel is still available and swallows even that
notice's failure.  Nothing ever propagates to the event loop. -/
def LeaderboardDropdown_callback (env : CbEnv) (key : String) : CbResult :=
  if !env.deferOk then
    ⟨Ev.deferEv :: errorNotice false, false, false, env.noticeOk⟩
  else
    match (fetch_leaderboard_data_default env.db key).result with
    | Except.error _ =>
      ⟨Ev.deferEv :: Ev.fetchEv key :: errorNotice true, false, false,
        env.noticeOk⟩
    | Except.ok rows =>
      match create_leaderboard_embed key rows with
      | none =>
        ⟨Ev.deferEv :: Ev.fetchEv key :: Ev.formatEv key :: errorNotice true,
          false, false, env.noticeOk⟩
      | some _ =>
        if env.followupOk then
          ⟨[Ev.deferEv, Ev.fetchEv key, Ev.formatEv key,
            Ev.followupSend false], false, true, false⟩
        else
          ⟨Ev.deferEv :: Ev.fetchEv key :: Ev.formatEv key ::
            Ev.followupSend false :: errorNotice true, false, false,
            env.noticeOk⟩

/-- The operations named by the acknowledge → fetch → format → send ordering
guarantee (error notices are excluded). -/
def isMainEv : Ev → Bool
  | Ev.deferEv => true
  | Ev.fetchEv _ => true
  | Ev.formatEv _ => true
  | Ev.followupSend _ => true
  | _ => false

/-- The `ORDER BY levels_reached DESC, kills DESC` ordering as a proposition
on a pair of rows: `a` strictly above `b`, or tied on levels with at least as
many kills. -/
def rowOrder (a b : Row) : Prop :=
  b.levels_reached < a.levels_reached ∨
    (a.levels_reached = b.levels_reached ∧ b.kills ≤ a.kills)

/-! ## Helper lemmas -/

lemma rowLe_iff (a b : Row) : rowLe a b = true ↔ rowOrder a b := by
  simp [rowLe, rowOrder]

lemma rowLe_trans : ∀ a b c : Row, rowLe a b → rowLe b c → rowLe a c := by
  intro a b c hab hbc
  rw [rowLe_iff] at *
  rcases hab with h1 | ⟨h1, h1k⟩ <;> rcases hbc with h2 | ⟨h2, h2k⟩ <;>
    unfold rowOrder <;> omega

lemma rowLe_total : ∀ a b : Row, rowLe a b || rowLe b a := by
  intro a b
  simp [rowLe]
  omega

lemma runQuery_sorted (env : DBEnv) (q : QueryShape) (limit : Nat) :
    List.Chain' rowOrder (runQuery env q limit) := by
  have hp : (List.mergeSort (env.resultSet q) rowLe).Pairwise
      (fun a b => rowLe a b) :=
    List.sorted_mergeSort rowLe_trans rowLe_total _
  have hp2 := (hp.sublist (List.take_sublist limit _)).imp
    (fun h => (rowLe_iff _ _).mp h)
  exact hp2.chain'

lemma runQuery_length (env : DBEnv) (q : QueryShape) (limit : Nat) :
    (runQuery env q limit).length ≤ limit :=
  List.length_take_le _ _

lemma create_some_of_get (key : String) (config : LBConfig) (data : List Row)
    (hk : LEADERBOARDS_get key = some config) :
    (create_leaderboard_embed key data).isSome = true := by
  unfold create_leaderboard_embed
  rw [hk]
  by_cases hd : data.isEmpty <;> simp [hd]

/-! ## Claims -/

/-- Claim C1. For every input to `fetch_leaderboard_data` — any key string
including one absent from the registry, any limit, a database that refuses
connections, a query that fails, or a zero-row result — the call never
raises or propagates an exception and always returns a (possibly empty) row
list.  The hypothesis `hcursor` records the MySQL connector's actual
behaviour: `connection.cursor()` only raises when the connection has become
unavailable, and a connection that is unavailable at cursor-creation time is
still unavailable when the `finally` block runs, so the latent unbound-local
`cursor` read in the `finally` block is unreachable. -/
theorem fetch_never_raises (env : DBEnv) (key : String) (limit : Nat)
    (hcursor : env.cursorOk = false → env.connectedAtFinally = false) :
    (fetch_leaderboard_data env key limit).result.isOk = true := by
  rcases env with ⟨co, cu, qo, cf, rs⟩
  simp only at hcursor
  unfold fetch_leaderboard_data
  cases LEADERBOARDS_get key with
  | none => rfl
  | some config =>
    cases co <;> cases cu <;> cases qo <;> cases cf <;>
      simp_all <;> rfl

/-- Witness for C1: a run whose cursor creation fails (with the connection
accordingly unavailable at `finally` time) still returns a row list. -/
theorem fetch_never_raises_witness :
    (fetch_leaderboard_data ⟨true, false, true, false, fun _ => []⟩
      "general" 10).result.isOk = true :=
  fetch_never_raises _ "general" 10 (fun _ => rfl)

/-- Claim C5. For every key that resolves in the registry, exactly one of the
three query shapes is selected: `join_users = true` picks the `Users` join
projecting the identity's nickname, kills and levels reached;
`join_users = false` with key `"3ull"` projects the `user_id` field directly
as nickname; otherwise the `username` column is projected.  Whenever a fetch
for such a key reaches query construction, the built query is exactly the
dispatched shape. -/
theorem query_dispatch (key : String) (config : LBConfig)
    (hk : LEADERBOARDS_get key = some config) :
    (config.join_users = true →
      query_shape config key = QueryShape.joinUsers config.table) ∧
    (config.join_users = false → key = "3ull" →
      query_shape config key = QueryShape.directUserId config.table) ∧
    (config.join_users = false → key ≠ "3ull" →
      query_shape config key = QueryShape.usernameColumn config.table) ∧
    (∀ env : DBEnv, ∀ limit : Nat, env.connectOk = true → env.cursorOk = true →
      (fetch_leaderboard_data env key limit).builtQuery =
        some (query_shape config key)) := by
  refine ⟨fun hj => ?_, fun hj h3 => ?_, fun hj h3 => ?_, ?_⟩
  · simp [query_shape, hj]
  · simp [query_shape, hj, h3]
  · simp [query_shape, hj, h3]
  · intro env limit hco hcu
    unfold fetch_leaderboard_data
    rw [hk, hco, hcu]
    by_cases hq : env.queryOk <;> simp [hq]

/-- Witness for C5: the `"3ull"` key resolves with `join_users = false` and
dispatches to the direct `user_id as nickname` projection, and a fetch that
reaches query construction builds exactly that query. -/
theorem query_dispatch_witness :
    query_shape ⟨"Playa3ull", "3ull_tournament_leaderboard", false⟩ "3ull" =
      QueryShape.directUserId "3ull_tournament_leaderboard" ∧
    (fetch_leaderboard_data ⟨true, true, true, true, fun _ => []⟩ "3ull"
        10).builtQuery =
      some (query_shape ⟨"Playa3ull", "3ull_tournament_leaderboard", false⟩
        "3ull") := by
  have h := query_dispatch "3ull"
    ⟨"Playa3ull", "3ull_tournament_leaderboard", false⟩ rfl
  exact ⟨h.2.1 rfl rfl, h.2.2.2 _ 10 rfl rfl⟩

/-- Claim C10. Unlike the fail-soft fetcher, `create_leaderboard_embed` is
partial: for every key absent from the registry it raises `KeyError`
(modelled `none`) instead of returning an embed, and it returns an embed
exactly when the key resolves; the fetcher on the same unknown key instead
returns an empty row list. -/
theorem create_embed_domain (key : String) (data : List Row) :
    (create_leaderboard_embed key data = none ↔ LEADERBOARDS_get key = none) ∧
    (LEADERBOARDS_get key = none → ∀ env : DBEnv, ∀ limit : Nat,
      (fetch_leaderboard_data env key limit).result = Except.ok []) := by
  constructor
  · constructor
    · intro h
      cases hk : LEADERBOARDS_get key with
      | none => rfl
      | some config =>
        have := create_some_of_get key config data hk
        rw [h] at this
        simp at this
    · intro hk
      unfold create_leaderboard_embed
      rw [hk]
  · intro hk env limit
    unfold fetch_leaderboard_data
    rw [hk]

/-- Witness for C10: the unknown key `"nope"` makes the formatter fault
(`KeyError`) while the fetcher returns an empty list. -/
theorem create_embed_domain_witness :
    create_leaderboard_embed "nope" [] = none ∧
    (fetch_leaderboard_data ⟨true, true, true, true, fun _ => []⟩ "nope"
      10).result = Except.ok [] :=
  ⟨(create_embed_domain "nope" []).1.mpr rfl,
    (create_embed_domain "nope" []).2 rfl _ 10⟩

/-- Claim C2. Two `leaderboards_command` calls: after an accepted call at `t1`
(one for which at least 300 seconds have passed since the previous
invocation), a second call at `t2` with `t2 - t1 < 300` sends only the
remaining-wait notice — with the minute and second counts the code computes
from `remaining = 300 - (t2 - t1)` — and leaves `last_leaderboard_time`
unchanged at `t1`; and with `t2 - t1 ≥ 300` the second call is accepted,
sends the menu, and sets `last_leaderboard_time = t2`.  The command function
never calls the fetcher on any branch: its only effects are the sends listed
in `CmdResult.sends`. -/
theorem cooldown_two_calls (env1 env2 : CmdEnv) (last t1 t2 : ℚ)
    (h1 : 300 ≤ t1 - last) :
    (leaderboards_command env1 t1 last).state = t1 ∧
    (t2 - t1 < 300 →
      (leaderboards_command env2 t2
          (leaderboards_command env1 t1 last).state).sends =
        [Send.cooldownNotice (Rat.floor ((300 - (t2 - t1)) / 60))
          (Rat.floor (300 - (t2 - t1)) -
            60 * Rat.floor ((300 - (t2 - t1)) / 60))] ∧
      (leaderboards_command env2 t2
          (leaderboards_command env1 t1 last).state).state = t1) ∧
    (300 ≤ t2 - t1 →
      (leaderboards_command env2 t2
          (leaderboards_command env1 t1 last).state).sends =
        [Send.menuMessage] ∧
      (leaderboards_command env2 t2
          (leaderboards_command env1 t1 last).state).state = t2) := by
  have hn1 : ¬(t1 - last < 300) := not_lt.mpr h1
  have hs1 : (leaderboards_command env1 t1 last).state = t1 := by
    simp [leaderboards_command, if_neg hn1]
  refine ⟨hs1, fun hlt => ?_, fun hge => ?_⟩
  · rw [hs1]
    simp [leaderboards_command, if_pos hlt]
  · rw [hs1]
    have hn2 : ¬(t2 - t1 < 300) := not_lt.mpr hge
    simp [leaderboards_command, if_neg hn2]

/-- Witness for C2: with the previous invocation at time 0, a call at
`t1 = 300` is accepted; a second call at `t2 = 400` (100 s later) leaves the
cooldown state at 300 and sends the notice computed from the remaining
200 s, namely 3 minutes 20 seconds. -/
theorem cooldown_two_calls_witness :
    (leaderboards_command ⟨true⟩ 400
        (leaderboards_command ⟨true⟩ 300 0).state).sends =
      [Send.cooldownNotice 3 20] ∧
    (leaderboards_command ⟨true⟩ 400
        (leaderboards_command ⟨true⟩ 300 0).state).state = 300 := by
  have h := (cooldown_two_calls ⟨true⟩ ⟨true⟩ 0 300 400 (by norm_num)).2.1
    (by norm_num)
  refine ⟨?_, h.2⟩
  rw [h.1]
  norm_num [Rat.floor]

/-- Claim C6 is refuted as stated: a call that successfully opens a connection
but whose connection is no longer connected when the `finally` block runs —
for instance because the server dropped it, which is also why the query
failed — skips both `cursor.close()` and `connection.close()`, because line
186 guards them behind `connection.is_connected()`.  The connection object
is therefore not closed on this exit path. -/
theorem fetch_close_skipped :
    (fetch_leaderboard_data ⟨true, true, false, false, fun _ => []⟩
      "general" 10).opened = true ∧
    (fetch_leaderboard_data ⟨true, true, false, false, fun _ => []⟩
      "general" 10).closeCalled = false :=
  ⟨rfl, rfl⟩

/-- **C6 (amended).** For every call in which a connection was opened,
`connection.close()` is invoked before return exactly when
`connection.is_connected()` still reports true in the `finally` block; in
particular on every exit path with a live connection — query success or
query failure alike — the connection is closed, while a connection that has
already dropped is left unclosed.  (`hcursor` is the connector-behaviour
hypothesis of C1.) -/
theorem fetch_close_when_connected (env : DBEnv) (key : String) (limit : Nat)
    (hcursor : env.cursorOk = false → env.connectedAtFinally = false)
    (hopen : (fetch_leaderboard_data env key limit).opened = true) :
    (fetch_leaderboard_data env key limit).closeCalled =
      env.connectedAtFinally := by
  revert hopen
  rcases env with ⟨co, cu, qo, cf, rs⟩
  simp only at hcursor ⊢
  unfold fetch_leaderboard_data
  cases LEADERBOARDS_get key
  · intro h
    simp at h
  · cases co <;> cases cu <;> cases qo <;> cases cf <;> simp_all

/-- Witness for C6 (amended): a clean run on a live connection really calls
`connection.close()`. -/
theorem fetch_close_when_connected_witness :
    (fetch_leaderboard_data ⟨true, true, true, true, fun _ => []⟩
      "general" 10).closeCalled = true :=
  fetch_close_when_connected ⟨true, true, true, true, fun _ => []⟩
    "general" 10 (fun h => by simp at h) rfl

/-- Claim C7 is refuted as stated: `last_leaderboard_time` is assigned at line
345, *before* the menu message is sent at line 370, so an accepted
invocation whose menu send fails (the exception escapes the command — there
is no handler) has already overwritten the cooldown state: starting from
state 0, an accepted call at time 1000 whose send fails leaves the state at
1000, not 0. -/
theorem cooldown_updated_despite_send_failure :
    (leaderboards_command ⟨false⟩ 1000 0).raised = true ∧
    (leaderboards_command ⟨false⟩ 1000 0).state = 1000 := by
  constructor <;> norm_num [leaderboards_command]

/-- Every `fetch_leaderboard_data` outcome is one of: the empty list, the
escaped `UnboundLocalError`, or the sorted-and-truncated rows of the built
query. -/
lemma fetch_result_cases (env : DBEnv) (key : String) (limit : Nat) :
    (fetch_leaderboard_data env key limit).result = Except.ok [] ∨
    (fetch_leaderboard_data env key limit).result =
      Except.error PyError.unboundLocalError ∨
    ∃ q, (fetch_leaderboard_data env key limit).result =
      Except.ok (runQuery env q limit) := by
  rcases env with ⟨co, cu, qo, cf, rs⟩
  unfold fetch_leaderboard_data
  cases LEADERBOARDS_get key with
  | none => left; rfl
  | some config =>
    cases co <;> cases cu <;> cases qo <;> cases cf <;>
      first
      | (left; rfl)
      | (right; left; rfl)
      | (right; right; exact ⟨_, rfl⟩)

/-- Claim C3. Every row list `fetch_leaderboard_data` returns is ordered: each
adjacent pair `(a, b)` has `a.levels_reached > b.levels_reached`, or equal
levels reached and `a.kills ≥ b.kills`; and the list has at most `limit`
rows (`limit` defaults to 10, see `fetch_leaderboard_data_default`). -/
theorem fetch_rows_sorted (env : DBEnv) (key : String) (limit : Nat)
    (rows : List Row)
    (h : (fetch_leaderboard_data env key limit).result = Except.ok rows) :
    List.Chain' rowOrder rows ∧ rows.length ≤ limit := by
  rcases fetch_result_cases env key limit with hc | hc | ⟨q, hc⟩
  · rw [hc] at h
    obtain rfl : rows = [] := by simpa using h.symm
    exact ⟨List.chain'_nil, by simp⟩
  · rw [hc] at h
    simp at h
  · rw [hc] at h
    obtain rfl : rows = runQuery env q limit := by simpa using h.symm
    exact ⟨runQuery_sorted _ _ _, runQuery_length _ _ _⟩

/-- Witness for C3: a database holding Ann above Bo (a tie on levels
reached, broken by kills) comes back in that order, adjacent-pair sorted and
within the limit. -/
theorem fetch_rows_sorted_witness :
    List.Chain' rowOrder [Row.mk "Ann" 1500 20, Row.mk "Bo" 900 20] ∧
    ([Row.mk "Ann" 1500 20, Row.mk "Bo" 900 20] : List Row).length ≤ 10 := by
  have hs : List.mergeSort [Row.mk "Ann" 1500 20, Row.mk "Bo" 900 20] rowLe =
      [Row.mk "Ann" 1500 20, Row.mk "Bo" 900 20] :=
    List.mergeSort_of_sorted (by decide)
  exact fetch_rows_sorted
    ⟨true, true, true, true, fun _ => [Row.mk "Ann" 1500 20, Row.mk "Bo" 900 20]⟩
    "general" 10 _
    (by simp [fetch_leaderboard_data, LEADERBOARDS_get, LEADERBOARDS,
      runQuery, hs])

lemma foldl_append_eq (l : List String) : ∀ s : String,
    l.foldl (fun r t => r ++ t) s = s ++ l.foldl (fun r t => r ++ t) "" := by
  induction l with
  | nil => intro s; simp
  | cons a l ih =>
    intro s
    simp only [List.foldl_cons]
    rw [ih (s ++ a), ih ("" ++ a)]
    simp [String.append_assoc]

lemma join_cons_str (a : String) (l : List String) :
    String.join (a :: l) = a ++ String.join l := by
  unfold String.join
  simp only [List.foldl_cons]
  rw [foldl_append_eq l ("" ++ a)]
  simp

lemma linesFrom_length (data : List Row) : ∀ i : Nat,
    (linesFrom i data).length = data.length := by
  induction data with
  | nil => intro i; rfl
  | cons p ps ih => intro i; simp [linesFrom, ih]

/-- The `for i, player in enumerate(data, 1)` accumulation equals the
concatenation of the per-row rendered lines, ranks counted from `i`. -/
lemma foldl_rankedLine (data : List Row) : ∀ (i : Nat) (s : String),
    (data.foldl (fun (acc : String × Nat) (player : Row) =>
        (acc.1 ++ rankedLine acc.2 player, acc.2 + 1)) (s, i)).1 =
      s ++ String.join (linesFrom i data) := by
  induction data with
  | nil =>
    intro i s
    simp [linesFrom, String.join]
  | cons p ps ih =>
    intro i s
    simp only [List.foldl_cons, linesFrom]
    rw [ih (i + 1) (s ++ rankedLine i p), join_cons_str, String.append_assoc]

/-- Claim C4. On an empty row list `create_leaderboard_embed` produces the
"no players found" notice and no ranked list; on `n` rows it produces
exactly the concatenation of `n` ranked lines numbered from 1, each line the
fixed template `"{i}. **{nickname}** - {levels_reached} waves survived,
{kills:,} enemies destroyed"`, e.g. the Ann and Bo lines of the spec's
end-to-end scenario. -/
theorem create_embed_lines (key : String) (config : LBConfig)
    (data : List Row) (hk : LEADERBOARDS_get key = some config) :
    (data = [] → create_leaderboard_embed key data =
      some ⟨config.name, 0, "Graveyard Antics TD",
        "No players found in this leaderboard."⟩) ∧
    (data ≠ [] → create_leaderboard_embed key data =
      some ⟨config.name, 0, "Graveyard Antics TD",
        String.join (linesFrom 1 data)⟩) ∧
    (linesFrom 1 data).length = data.length ∧
    rankedLine 1 (Row.mk "Ann" 1500 20) =
      "1. **Ann** - 20 waves survived, 1,500 enemies destroyed\n" ∧
    rankedLine 2 (Row.mk "Bo" 900 20) =
      "2. **Bo** - 20 waves survived, 900 enemies destroyed\n" := by
  refine ⟨fun he => ?_, fun hne => ?_, linesFrom_length data 1, rfl, rfl⟩
  · subst he
    simp [create_leaderboard_embed, hk]
  · have hie : data.isEmpty = false := by
      cases data with
      | nil => exact absurd rfl hne
      | cons p ps => rfl
    unfold create_leaderboard_embed
    rw [hk]
    simp [hie, foldl_rankedLine]

/-- Witness for C4: rendering the spec's Ann/Bo scenario for the `general`
leaderboard yields exactly the two expected lines. -/
theorem create_embed_lines_witness :
    create_leaderboard_embed "general"
        [Row.mk "Ann" 1500 20, Row.mk "Bo" 900 20] =
      some ⟨"General Leaderboard", 0, "Graveyard Antics TD",
        "1. **Ann** - 20 waves survived, 1,500 enemies destroyed\n" ++
          ("2. **Bo** - 20 waves survived, 900 enemies destroyed\n" ++ "")⟩ :=
  (create_embed_lines "general" ⟨"General Leaderboard", "Leaderboard", true⟩
    [Row.mk "Ann" 1500 20, Row.mk "Bo" 900 20] rfl).2.1 (by simp)

/-- **C7 (amended).** `last_leaderboard_time` holds the timestamp of the
last invocation that passed the cooldown gate, whether or not its menu
message was subsequently sent successfully: every call updates the state to
`now` iff the cooldown check passes, independently of the send outcome. -/
theorem cooldown_state_transition (env : CmdEnv) (now last : ℚ) :
    (leaderboards_command env now last).state =
      if now - last < 300 then last else now := by
  unfold leaderboards_command
  split <;> rfl

/-- The five possible runs of the dropdown callback: failed acknowledgement,
raising fetch, faulting formatter, full success, and failed leaderboard
send. -/
lemma callback_cases (env : CbEnv) (key : String) :
    (env.deferOk = false ∧ LeaderboardDropdown_callback env key =
      ⟨[Ev.deferEv, Ev.errorResponse true], false, false, env.noticeOk⟩) ∨
    (env.deferOk = true ∧ LeaderboardDropdown_callback env key =
      ⟨[Ev.deferEv, Ev.fetchEv key, Ev.errorFollowup true], false, false,
        env.noticeOk⟩) ∨
    (env.deferOk = true ∧ LeaderboardDropdown_callback env key =
      ⟨[Ev.deferEv, Ev.fetchEv key, Ev.formatEv key, Ev.errorFollowup true],
        false, false, env.noticeOk⟩) ∨
    (env.deferOk = true ∧ LeaderboardDropdown_callback env key =
      ⟨[Ev.deferEv, Ev.fetchEv key, Ev.formatEv key, Ev.followupSend false],
        false, true, false⟩) ∨
    (env.deferOk = true ∧ LeaderboardDropdown_callback env key =
      ⟨[Ev.deferEv, Ev.fetchEv key, Ev.formatEv key, Ev.followupSend false,
        Ev.errorFollowup true], false, false, env.noticeOk⟩) := by
  cases hd : env.deferOk
  · refine Or.inl ⟨rfl, ?_⟩
    simp [LeaderboardDropdown_callback, hd, errorNotice]
  · cases hfr : (fetch_leaderboard_data_default env.db key).result with
    | error e =>
      refine Or.inr (Or.inl ⟨rfl, ?_⟩)
      simp [LeaderboardDropdown_callback, hd, hfr, errorNotice]
    | ok rows =>
      cases hc : create_leaderboard_embed key rows with
      | none =>
        refine Or.inr (Or.inr (Or.inl ⟨rfl, ?_⟩))
        simp [LeaderboardDropdown_callback, hd, hfr, hc, errorNotice]
      | some embed =>
        cases hf : env.followupOk
        · refine Or.inr (Or.inr (Or.inr (Or.inr ⟨rfl, ?_⟩)))
          simp [LeaderboardDropdown_callback, hd, hfr, hc, hf, errorNotice]
        · refine Or.inr (Or.inr (Or.inr (Or.inl ⟨rfl, ?_⟩)))
          simp [LeaderboardDropdown_callback, hd, hfr, hc, hf, errorNotice]

/-- Claim C8. Within every single dropdown-callback run, the main operations
occur in the strict order acknowledge → fetch → format → send: the sequence
of main operations attempted is always a prefix of
`[defer, fetch key, format key, followup-send]`, and a run that delivers the
leaderboard performs exactly these four operations in exactly this order
(the send being the public, non-ephemeral message). -/
theorem callback_effect_order (env : CbEnv) (key : String) :
    List.IsPrefix
      ((LeaderboardDropdown_callback env key).trace.filter isMainEv)
      [Ev.deferEv, Ev.fetchEv key, Ev.formatEv key, Ev.followupSend false] ∧
    ((LeaderboardDropdown_callback env key).success = true →
      (LeaderboardDropdown_callback env key).trace =
        [Ev.deferEv, Ev.fetchEv key, Ev.formatEv key,
          Ev.followupSend false]) := by
  rcases callback_cases env key with ⟨hd, hcb⟩ | ⟨hd, hcb⟩ | ⟨hd, hcb⟩ |
    ⟨hd, hcb⟩ | ⟨hd, hcb⟩ <;> rw [hcb]
  · exact ⟨⟨[Ev.fetchEv key, Ev.formatEv key, Ev.followupSend false], rfl⟩,
      by simp⟩
  · exact ⟨⟨[Ev.formatEv key, Ev.followupSend false], rfl⟩, by simp⟩
  · exact ⟨⟨[Ev.followupSend false], rfl⟩, by simp⟩
  · exact ⟨⟨[], rfl⟩, fun _ => rfl⟩
  · exact ⟨⟨[], rfl⟩, by simp⟩

/-- Witness for C8: a fully successful run (live database, known key,
successful sends) performs exactly acknowledge, fetch, format, send. -/
theorem callback_effect_order_witness :
    (LeaderboardDropdown_callback
        ⟨true, ⟨true, true, true, true, fun _ => []⟩, true, true⟩
        "general").trace =
      [Ev.deferEv, Ev.fetchEv "general", Ev.formatEv "general",
        Ev.followupSend false] :=
  (callback_effect_order
    ⟨true, ⟨true, true, true, true, fun _ => []⟩, true, true⟩ "general").2
    (by simp [LeaderboardDropdown_callback, fetch_leaderboard_data_default,
      fetch_leaderboard_data, LEADERBOARDS_get, LEADERBOARDS, runQuery,
      create_leaderboard_embed])

/-- Claim C9. No exception escapes the dropdown callback to the event loop,
for any environment and any selected key — including a fetch that itself
raises, a `KeyError` from the formatter, a failed acknowledgement, a failed
leaderboard send, and a failed error notice (which is swallowed).  Whenever
the leaderboard message is not delivered, the callback attempts the generic
failure notice on the channel still available: the immediate interaction
response if the acknowledgement never succeeded, a follow-up message
otherwise. -/
theorem callback_catches_all (env : CbEnv) (key : String) :
    (LeaderboardDropdown_callback env key).raised = false ∧
    ((LeaderboardDropdown_callback env key).success = false →
      (env.deferOk = false →
        Ev.errorResponse true ∈ (LeaderboardDropdown_callback env key).trace) ∧
      (env.deferOk = true →
        Ev.errorFollowup true ∈
          (LeaderboardDropdown_callback env key).trace)) := by
  rcases callback_cases env key with ⟨hd, hcb⟩ | ⟨hd, hcb⟩ | ⟨hd, hcb⟩ |
    ⟨hd, hcb⟩ | ⟨hd, hcb⟩ <;> rw [hcb]
  · exact ⟨rfl, fun _ => ⟨fun _ => by simp, fun h => by simp [hd] at h⟩⟩
  · exact ⟨rfl, fun _ => ⟨fun h => by simp [hd] at h, fun _ => by simp⟩⟩
  · exact ⟨rfl, fun _ => ⟨fun h => by simp [hd] at h, fun _ => by simp⟩⟩
  · exact ⟨rfl, fun hs => by simp at hs⟩
  · exact ⟨rfl, fun _ => ⟨fun h => by simp [hd] at h, fun _ => by simp⟩⟩

/-- Witness for C9: a run in which the acknowledgement succeeded but both
the leaderboard send and the error notice fail still raises nothing, and the
follow-up error notice was attempted. -/
theorem callback_catches_all_witness :
    (LeaderboardDropdown_callback
        ⟨true, ⟨true, true, true, true, fun _ => []⟩, false, false⟩
        "general").raised = false ∧
    Ev.errorFollowup true ∈
      (LeaderboardDropdown_callback
        ⟨true, ⟨true, true, true, true, fun _ => []⟩, false, false⟩
        "general").trace := by
  have h := callback_catches_all
    ⟨true, ⟨true, true, true, true, fun _ => []⟩, false, false⟩ "general"
  exact ⟨h.1, (h.2 (by simp [LeaderboardDropdown_callback,
    fetch_leaderboard_data_default, fetch_leaderboard_data, LEADERBOARDS_get,
    LEADERBOARDS, runQuery, create_leaderboard_embed])).2 rfl⟩
